import Mathlib

/-!
Shallow embedding of the CDLS (Cloudy Data Load Subsystem) core:
registry (`cdls/__init__.py`), data-source lifecycle and load report
(`cdls/datasources.py`), and warehouse store (`cdls/db.py`).

Modelling conventions:
* Python `datetime` values are embedded as `Nat` via an order-embedding of
  the (totally ordered) datetime axis; `datetime.min`, the minimal
  representable datetime, is mapped to `0`, so every date is ≥ the sentinel
  by construction.
* A raised Python exception is an `Except`/`Option PyErr` outcome; mutation
  of process-global state is explicit state passing.
* Python 3.7+ `dict` is an insertion-ordered association list with unique
  keys: updating an existing key keeps its position, a new key is appended.
-/

/-- The exceptions that the embedded code can raise.  The first five
constructors are the `CDLSError` hierarchy of `cdls/errors.py`; the rest are
builtin Python exceptions that the embedded code can surface. -/
inductive PyErr where
  | cdlsError (msg : String)
  | databaseError (msg : String)
  | sourceConfigurationError (msg : String)
  | extractError (msg : String)
  | unregisteredSourceError (identifier : String)
  | nameError (identifier : String)
  | assertionError
  | operationalError (msg : String)
  | attributeError (msg : String)
  | typeError (msg : String)
  | valueError (msg : String)
  deriving DecidableEq

/-- Test for `isinstance(e, CDLSError)`: membership in the domain-error hierarchy of
`cdls/errors.py` (CDLSError and its four subclasses). -/
def isCDLSError : PyErr → Bool
  | .cdlsError _ => true
  | .databaseError _ => true
  | .sourceConfigurationError _ => true
  | .extractError _ => true
  | .unregisteredSourceError _ => true
  | _ => false

/-- Test for `isinstance(e, SourceConfigurationError)` (the spec's `ConfigurationError`). -/
def isConfigurationError : PyErr → Bool
  | .sourceConfigurationError _ => true
  | _ => false

/-- Python `str.strip()`: removes leading and trailing whitespace characters. -/
def pyStrip (s : String) : String :=
  ⟨((s.data.dropWhile Char.isWhitespace).reverse.dropWhile Char.isWhitespace).reverse⟩

/-- Embeds `LoadReport` of `cdls/datasources.py`: per-execution metrics accumulator.
`time_elapsed` (a float in the source) is embedded as `Int`; only its `-1`
sentinel initialisation matters to the properties below. -/
structure LoadReport where
  identifier : String
  latest_record : Nat
  number_processed : Nat
  number_successes : Nat
  successful : Bool
  time_elapsed : Int
  deriving DecidableEq

/-- Embeds `LoadReport.__init__(self, datasource)`: copies the datasource's
identifier and initialises `latest_record = datetime.datetime.min` (the `0`
sentinel here), zero counters, `successful = False`, `time_elapsed = -1`. -/
def LoadReport.init (identifier : String) : LoadReport :=
  { identifier := identifier
    latest_record := 0
    number_processed := 0
    number_successes := 0
    successful := false
    time_elapsed := -1 }

/-- Embeds `BaseDataSource._update_latest_record_date(self, new_date)`: replaces the
report's `latest_record` with `max(new_date, previous_date)`.  (The string →
datetime conversion branch for `str` arguments is outside this model: dates
are supplied directly.) -/
def update_latest_record_date (report : LoadReport) (new_date : Nat) : LoadReport :=
  { report with latest_record := max new_date report.latest_record }

deriving instance DecidableEq for Except

/-- A registered data source, abstracted to what the orchestrator observes:
its identity accessors and the outcome of one call to its `execute()`
lifecycle (a finalized `LoadReport`, or a raised exception). -/
structure DataSource where
  identifier : String
  dstype : String
  description : String
  behavior : Except PyErr LoadReport
  deriving DecidableEq

/-- The `_datasources` registry: a Python dict from identifier to instance,
as an insertion-ordered association list. -/
abbrev Registry := List (String × DataSource)

/-- Python dict lookup `d[k]` (as an `Option`). -/
def dictGet {α : Type} (d : List (String × α)) (k : String) : Option α :=
  match d.find? (fun p => p.1 == k) with
  | some p => some p.2
  | none => none

/-- Python dict assignment `d[k] = v`: an existing key keeps its position,
a new key is appended at the end (insertion order). -/
def dictSet {α : Type} (d : List (String × α)) (k : String) (v : α) :
    List (String × α) :=
  if d.any (fun p => p.1 == k) then
    d.map (fun p => if p.1 == k then (k, v) else p)
  else
    d ++ [(k, v)]

/-- Embeds `register_datasource(datasource)`: stores the instance in `_datasources`
keyed by `datasource.get_identifier()` — the identifier exactly as
constructed, with no trimming.  (The logger/database injections have no
observable effect on the registry and are omitted.) -/
def register_datasource (reg : Registry) (ds : DataSource) : Registry :=
  dictSet reg ds.identifier ds

/-- Python's lexicographic comparison of strings (by code point), on the
underlying character lists. -/
def charsLe : List Char → List Char → Bool
  | [], _ => true
  | _ :: _, [] => false
  | a :: as, b :: bs =>
    if a.val < b.val then true
    else if b.val < a.val then false
    else charsLe as bs

/-- Python `a <= b` on strings. -/
def strLe (a b : String) : Bool :=
  charsLe a.data b.data

/-- Stable insertion step for sorting dict items by key, modelling the
comparison `sorted(_datasources.items())` performs (keys are unique in a
dict, so the pairs compare by key alone). -/
def insertByKey {α : Type} (x : String × α) : List (String × α) → List (String × α)
  | [] => [x]
  | y :: ys => if strLe x.1 y.1 then x :: y :: ys else y :: insertByKey x ys

/-- Embeds `sorted(_datasources.items())`: the dict items in ascending key order.
(Also reused for the `sort_keys=True` option of `json.dumps`.) -/
def sortByKey {α : Type} (l : List (String × α)) : List (String × α) :=
  l.foldr insertByKey []

/-- Embeds `list_registered_sources()`: maps each registered source, in sorted-key
order, to the tuple `(identifier, type, description)`. -/
def list_registered_sources (reg : Registry) : List (String × String × String) :=
  (sortByKey reg).map (fun p => (p.2.identifier, p.2.dstype, p.2.description))

/-- The loop body of `perform_all_loads`: iterates the remaining sources,
appending each successful `execute()` report to the accumulator; a raised
`CDLSError` is re-raised when `halt_on_error` and otherwise skipped; any
other exception propagates. -/
def performLoadsLoop (halt_on_error : Bool) :
    List DataSource → List LoadReport → Except PyErr (List LoadReport)
  | [], reports => .ok reports
  | ds :: rest, reports =>
    match ds.behavior with
    | .ok report => performLoadsLoop halt_on_error rest (reports ++ [report])
    | .error e =>
      if isCDLSError e then
        if halt_on_error then .error e
        else performLoadsLoop halt_on_error rest reports
      else .error e

/-- Embeds `perform_all_loads(halt_on_error=False)`: runs the loop over
`_datasources.values()` — the registry's values in insertion order — starting
from the empty report list, and returns the collected reports. -/
def perform_all_loads (reg : Registry) (halt_on_error : Bool) :
    Except PyErr (List LoadReport) :=
  performLoadsLoop halt_on_error (reg.map (fun p => p.2)) []

/-- Embeds `perform_load(identifier)`: strips the requested identifier, looks it up
in `_datasources` (raising `UnregisteredSourceError` on a miss), then invokes
`execute()`; a raised `CDLSError` is logged and re-raised unchanged. -/
def perform_load (reg : Registry) (identifier : String) :
    Except PyErr LoadReport :=
  let identifier := pyStrip identifier
  match dictGet reg identifier with
  | none => .error (.unregisteredSourceError identifier)
  | some ds => ds.behavior

/-- A source configuration node, as decoded from the JSON config file: a
string-keyed mapping.  The values the core reads (`@QualifiedClassName`,
`id`, `description`) are strings. -/
abbrev ConfigNode := List (String × String)

/-- A Python class object, abstracted to what `_register_all_datasources`
observes: its name, whether `issubclass(cls, datasources.BaseDataSource)`
holds, and — for a `BaseDataSource` subclass — the required configuration
parameters its own `__init__` reads via `_get_config_param(key, True)`
beyond the `id`/`description` read by the shared `BaseDataSource.__init__`
(for `LocalFileDataSource`: `queue_path` then `archive_path`).  For a class
that is not a `BaseDataSource` subclass this list is irrelevant: the
`assert issubclass` fails before any constructor runs. -/
structure PyClass where
  name : String
  isDataSourceSubclass : Bool
  required_params : List String
  deriving DecidableEq

/-- The importable module universe: module name to the classes defined in
it.  `importlib.import_module` succeeds exactly on the listed modules and
`getattr` succeeds exactly on the listed attribute names. -/
abbrev Modules := List (String × List (String × PyClass))

/-- Python `s.rsplit(".", 1)` followed by unpacking into a 2-tuple: splits at
the last `.`; `none` models the `ValueError` the unpacking raises when the
string contains no `.` (rsplit then yields a single element). -/
def rsplitDot (s : String) : Option (String × String) :=
  (go s.data).map (fun p => (⟨p.1⟩, ⟨p.2⟩))
where
  go : List Char → Option (List Char × List Char)
  | [] => none
  | c :: cs =>
    match go cs with
    | some (l, r) => some (c :: l, r)
    | none => if c = '.' then some ([], cs) else none

/-- Embeds `_get_qualified_class_ref(config_node)`.  The `except KeyError`
and `except ImportError` handlers raise `SourceConfigurationError`.  The
`except AttributeError` handler executes `raise SourceConfigurationError(str(e))`
with `e` unbound at that point, so evaluating `str(e)` raises
`NameError` before the intended error is ever constructed — that `NameError`
propagates uncaught. -/
def get_qualified_class_ref (modules : Modules) (config_node : ConfigNode) :
    Except PyErr PyClass :=
  match dictGet config_node "@QualifiedClassName" with
  | none => .error (.sourceConfigurationError "@QualifiedClassName property is missing")
  | some qualified_name =>
    match rsplitDot qualified_name with
    | none => .error (.valueError "not enough values to unpack")
    | some (module_name, class_name) =>
      match dictGet modules module_name with
      | none => .error (.sourceConfigurationError ("No module named " ++ module_name))
      | some module_ref =>
        match dictGet module_ref class_name with
        | some cls => .ok cls
        | none => .error (.nameError "e")

/-- Embeds `BaseDataSource._get_config_param(key, required=True)`: reads the
key with `default=None`; `if required and not value` treats both a missing
key and an empty string as absent and raises `SourceConfigurationError`. -/
def get_config_param (node : ConfigNode) (key : String) : Except PyErr String :=
  match dictGet node key with
  | some v =>
    if v = "" then
      .error (.sourceConfigurationError
        ("Required config parameter " ++ key ++ " is missing"))
    else .ok v
  | none =>
    .error (.sourceConfigurationError
      ("Required config parameter " ++ key ++ " is missing"))

/-- Reads the class-specific required configuration parameters, in
declaration order, raising the first `SourceConfigurationError` (as the
subclass `__init__`'s successive `_get_config_param(key, True)` calls do).
The read values are only checked, not stored: nothing in the registration
and orchestration claims observes them. -/
def readRequiredParams (node : ConfigNode) : List String → Except PyErr Unit
  | [] => .ok ()
  | key :: rest =>
    match get_config_param node key with
    | .error e => .error e
    | .ok _ => readRequiredParams node rest

/-- Embeds `_DataSourceClassReference(config_node)`: the shared
`BaseDataSource.__init__` runs first (`super().__init__(config)`), reading
the required `id` and `description` params, and then the subclass's own
`__init__` reads its class-specific required params (for
`LocalFileDataSource`: `queue_path`, `archive_path`).  The `behavior` of
the constructed instance is `BaseDataSource.execute`'s default
(`raise CDLSError("Not yet implemented")`); the concrete subclass overrides
it, but no registration property depends on it. -/
def datasource_init (cls : PyClass) (node : ConfigNode) : Except PyErr DataSource :=
  match get_config_param node "id" with
  | .error e => .error e
  | .ok identifier =>
    match get_config_param node "description" with
    | .error e => .error e
    | .ok description =>
      match readRequiredParams node cls.required_params with
      | .error e => .error e
      | .ok _ =>
        .ok { identifier := identifier
              dstype := cls.name
              description := description
              behavior := .error (.cdlsError "Not yet implemented") }

/-- One iteration of the `_register_all_datasources` loop on one node:
resolve the class reference, `assert issubclass(..., BaseDataSource)` (an
`AssertionError` when the check fails), and construct the instance. -/
def process_node (modules : Modules) (node : ConfigNode) : Except PyErr DataSource :=
  match get_qualified_class_ref modules node with
  | .error e => .error e
  | .ok cls =>
    if cls.isDataSourceSubclass then datasource_init cls node
    else .error .assertionError

/-- Embeds `_register_all_datasources(source_configurations)`: registers the
nodes in order; the first raising node stops the loop, leaving the registry
as accumulated so far (the `except SourceConfigurationError` handler
re-raises the same error; `NameError`/`AssertionError` propagate uncaught). -/
def register_all_datasources (modules : Modules) (reg : Registry) :
    List ConfigNode → Registry × Option PyErr
  | [] => (reg, none)
  | node :: rest =>
    match process_node modules node with
    | .error e => (reg, some e)
    | .ok ds => register_all_datasources modules (register_datasource reg ds) rest

/-- A row of the `WAREHOUSE` table as `warehouse()` inserts it.  The `GUID`
column (a fresh time-ordered uuid1 per write) is not modelled: no claim here
depends on it. -/
structure Row where
  source_identifier : String
  record_date : String
  json : String
  deriving DecidableEq

/-- The sqlite database state visible to `cdls/db.py`: which of the two
tables exist, the warehouse rows, and whether the database is currently
locked (sqlite fails every statement on a locked database, one of the
`OperationalError` conditions the module's handlers must face). -/
structure DBState where
  has_loadstats : Bool
  has_warehouse : Bool
  rows : List Row
  locked : Bool
  deriving DecidableEq

/-- The five statements `cdls/db.py` executes (`_DDL_DROP_LOADSTATS`,
`_DDL_CREATE_LOADSTATS`, `_DDL_DROP_WAREHOUSE`, `_DDL_CREATE_WAREHOUSE`, and
the parametrised warehouse INSERT). -/
inductive Stmt where
  | dropLoadstats
  | createLoadstats
  | dropWarehouse
  | createWarehouse
  | insertWarehouse (row : Row)
  deriving DecidableEq

/-- Semantics of `connection.execute` for the five statements: on a locked
database every statement raises `sqlite3.OperationalError`; otherwise DROP
fails iff the table does not exist and destroys the table together with its
rows, CREATE fails iff the table already exists and yields a fresh empty
table, and INSERT fails iff the `WAREHOUSE` table is missing.  (Rows of the
`CDLS_LOAD_STATS` table are not modelled — nothing in `cdls/db.py` ever
inserts into it — so dropping it only clears its existence flag.) -/
def sqliteExec (s : DBState) (stmt : Stmt) : DBState × Option PyErr :=
  if s.locked then (s, some (.operationalError "database is locked"))
  else
    match stmt with
    | .dropLoadstats =>
      if s.has_loadstats then ({ s with has_loadstats := false }, none)
      else (s, some (.operationalError "no such table: CDLS_LOAD_STATS"))
    | .createLoadstats =>
      if s.has_loadstats then (s, some (.operationalError "table CDLS_LOAD_STATS already exists"))
      else ({ s with has_loadstats := true }, none)
    | .dropWarehouse =>
      if s.has_warehouse then ({ s with has_warehouse := false, rows := [] }, none)
      else (s, some (.operationalError "no such table: WAREHOUSE"))
    | .createWarehouse =>
      if s.has_warehouse then (s, some (.operationalError "table WAREHOUSE already exists"))
      else ({ s with has_warehouse := true, rows := [] }, none)
    | .insertWarehouse row =>
      if s.has_warehouse then ({ s with rows := s.rows ++ [row] }, none)
      else (s, some (.operationalError "no such table: WAREHOUSE"))

/-- Embeds `_execute_query(connection, query, params)`: executes the
statement and wraps a raised `sqlite3.OperationalError` as
`DatabaseError("sqlite3: ...")`. -/
def execute_query (s : DBState) (stmt : Stmt) : DBState × Option PyErr :=
  match sqliteExec s stmt with
  | (s1, some (.operationalError m)) => (s1, some (.databaseError ("sqlite3: " ++ m)))
  | r => r

/-- Embeds `install()`.  Each DROP sits in
`try: ... except sqlite3.OperationalError: pass` (and `sqliteExec` raises
nothing but `OperationalError`, so discarding the error is exactly that
handler).  `CREATE CDLS_LOAD_STATS` is run through the bare
`connection.execute`, so its failure propagates unwrapped, while
`CREATE WAREHOUSE` is run through `_execute_query`, which wraps failures as
`DatabaseError`. -/
def install (s0 : DBState) : DBState × Option PyErr :=
  let s1 := (sqliteExec s0 .dropLoadstats).1
  match sqliteExec s1 .createLoadstats with
  | (s2, some e) => (s2, some e)
  | (s2, none) =>
    let s3 := (sqliteExec s2 .dropWarehouse).1
    execute_query s3 .createWarehouse

/-- A Python value as seen by `json.dumps(default=_tojson)`: the natively
serializable primitives, lists and string-keyed dicts; `datetime` values;
instances with a `__dict__` (`obj`); and instances without one (`nodict`,
e.g. a `set`), on which the `o.__dict__` fallback of `_tojson` raises
`AttributeError`. -/
inductive PyVal where
  | str (s : String)
  | int (n : Int)
  | bool (b : Bool)
  | pynone
  | datetime (d : Nat)
  | pylist (xs : List PyVal)
  | pydict (entries : List (String × PyVal))
  | obj (cls : String) (fields : List (String × PyVal))
  | nodict (cls : String)

/-- Python `type(o).__name__`. -/
def typeName : PyVal → String
  | .str _ => "str"
  | .int _ => "int"
  | .bool _ => "bool"
  | .pynone => "NoneType"
  | .datetime _ => "datetime"
  | .pylist _ => "list"
  | .pydict _ => "dict"
  | .obj cls _ => cls
  | .nodict cls => cls

/-- Embeds `_date_to_string(date)` (`strftime("%Y-%m-%d %H:%M:%S.%f")`): an
injective rendering of the abstract date axis; the concrete digit layout is
immaterial to every claim. -/
def date_to_string (d : Nat) : String :=
  toString d

/-- Renders a JSON string literal (escaping is not modelled; no claim
depends on it). -/
def jsonString (s : String) : String :=
  "\"" ++ s ++ "\""

/-- Renders one `key: value` member of a JSON object. -/
def renderPair (p : String × String) : String :=
  jsonString p.1 ++ ": " ++ p.2

mutual

/-- Embeds `json.dumps(x, default=_tojson, sort_keys=True)`, with the two
helpers below for list elements and dict/`__dict__` entries.  The `default`
hook `_tojson` renders a `datetime` as `_date_to_string` and any other
non-native object as `o.__dict__` — raising `AttributeError` when the object
has no `__dict__`.  `indent=4` whitespace is abstracted away. -/
def dumpsVal : PyVal → Except PyErr String
  | .str s => .ok (jsonString s)
  | .int n => .ok (toString n)
  | .bool b => .ok (if b then "true" else "false")
  | .pynone => .ok "null"
  | .datetime d => .ok (jsonString (date_to_string d))
  | .pylist xs =>
    match dumpsElems xs with
    | .error e => .error e
    | .ok parts => .ok ("[" ++ String.intercalate ", " parts ++ "]")
  | .pydict es =>
    match dumpsEntries es with
    | .error e => .error e
    | .ok parts =>
      .ok ("\x7b" ++ String.intercalate ", " ((sortByKey parts).map renderPair) ++ "\x7d")
  | .obj _ fields =>
    match dumpsEntries fields with
    | .error e => .error e
    | .ok parts =>
      .ok ("\x7b" ++ String.intercalate ", " ((sortByKey parts).map renderPair) ++ "\x7d")
  | .nodict cls => .error (.attributeError (cls ++ " object has no attribute __dict__"))

/-- Serializes the elements of a Python list, left to right, propagating the
first raised exception. -/
def dumpsElems : List PyVal → Except PyErr (List String)
  | [] => .ok []
  | v :: vs =>
    match dumpsVal v with
    | .error e => .error e
    | .ok s =>
      match dumpsElems vs with
      | .error e => .error e
      | .ok rest => .ok (s :: rest)

/-- Serializes the entries of a dict (or an object's `__dict__`), left to
right, propagating the first raised exception. -/
def dumpsEntries : List (String × PyVal) → Except PyErr (List (String × String))
  | [] => .ok []
  | (k, v) :: es =>
    match dumpsVal v with
    | .error e => .error e
    | .ok s =>
      match dumpsEntries es with
      | .error e => .error e
      | .ok rest => .ok ((k, s) :: rest)

end

/-- Embeds the packaging step of `warehouse()`:
`{"$class": type(data).__name__, "$contents": data}`. -/
def packageData (data : PyVal) : PyVal :=
  .pydict [("$class", .str (typeName data)), ("$contents", data)]

/-- Python `str.upper()` (on the underlying characters). -/
def pyUpper (s : String) : String :=
  ⟨s.data.map Char.toUpper⟩

/-- Embeds `warehouse(data, source, record_date)`: packages and serializes
the data — a `TypeError` from serialization is wrapped as
`DatabaseError("JSON-serialization failed on data")`, while any other raised
exception (such as the `AttributeError` from `_tojson`) escapes the
`except TypeError` handler — then inserts the single row via
`_execute_query`.  The fresh uuid1 `GUID` is not modelled. -/
def warehouse (s : DBState) (data : PyVal) (source : String) (record_date : Nat) :
    DBState × Option PyErr :=
  match dumpsVal (packageData data) with
  | .error (.typeError _) => (s, some (.databaseError "JSON-serialization failed on data"))
  | .error e => (s, some e)
  | .ok json_string =>
    execute_query s (.insertWarehouse
      { source_identifier := pyUpper (pyStrip source)
        record_date := date_to_string record_date
        json := pyStrip json_string })

/-- Test for `isinstance(e, DatabaseError)`. -/
def isDatabaseError : PyErr → Bool
  | .databaseError _ => true
  | _ => false

/-- Decidable form of "this source's `execute()` raises nothing but a
`CDLSError` (if it raises at all)". -/
def failsOnlyAsCDLSError (ds : DataSource) : Bool :=
  match ds.behavior with
  | .ok _ => true
  | .error e => isCDLSError e

/-- Decidable form of "this source's `execute()` returns normally". -/
def behaviorOk (ds : DataSource) : Bool :=
  match ds.behavior with
  | .ok _ => true
  | .error _ => false

/-- Decidable form of "this source's `execute()` returns a report carrying
the source's own identifier" (which `BaseDataSource` guarantees: the report
is constructed from `datasource.get_identifier()`). -/
def returnsOwnReport (ds : DataSource) : Bool :=
  match ds.behavior with
  | .ok r => r.identifier == ds.identifier
  | .error _ => false

/-- A finalized successful report for a given identifier, as
`_finalize_report(True)` would leave it after two successful records. -/
def sampleReport (identifier : String) : LoadReport :=
  { identifier := identifier
    latest_record := 0
    number_processed := 2
    number_successes := 2
    successful := true
    time_elapsed := 1 }

/-- A succeeding source with identifier `a`. -/
def dsA : DataSource :=
  { identifier := "a", dstype := "LocalFileDataSource", description := "first"
    behavior := .ok (sampleReport "a") }

/-- A second source instance with the same identifier as `dsA` but a
different description. -/
def dsA2 : DataSource :=
  { identifier := "a", dstype := "LocalFileDataSource", description := "replacement"
    behavior := .ok (sampleReport "a") }

/-- A succeeding source with identifier `b`. -/
def dsB : DataSource :=
  { identifier := "b", dstype := "LocalFileDataSource", description := "second"
    behavior := .ok (sampleReport "b") }

/-- A source whose identifier carries surrounding whitespace. -/
def dsSp : DataSource :=
  { identifier := " src1 ", dstype := "LocalFileDataSource", description := "spacey"
    behavior := .ok (sampleReport " src1 ") }

/-- A source whose `execute()` raises `ExtractError` (a `CDLSError`). -/
def dsFail : DataSource :=
  { identifier := "alpha", dstype := "LocalFileDataSource", description := "failing"
    behavior := .error (.extractError "boom") }

/-- A source whose `execute()` raises a `TypeError` — not a `CDLSError`. -/
def dsBoom : DataSource :=
  { identifier := "gamma", dstype := "LocalFileDataSource", description := "crashing"
    behavior := .error (.typeError "unsupported operand") }

/-- Registry with `b` registered before `a`: insertion order `[b, a]`. -/
def regBA : Registry :=
  register_datasource (register_datasource [] dsB) dsA

/-- Registry with `a` registered before `b`: insertion order `[a, b]`. -/
def regAB : Registry :=
  register_datasource (register_datasource [] dsA) dsB

/-- Registry of three sources of which exactly the middle one fails with a
domain error. -/
def regMix : Registry :=
  register_datasource (register_datasource (register_datasource [] dsA) dsFail) dsB

/-- Registry whose first source (in insertion order) fails with a domain
error, followed by a succeeding source. -/
def regHalt : Registry :=
  register_datasource (register_datasource [] dsFail) dsB

/-- Registry with a succeeding source followed by one raising a
non-`CDLSError`. -/
def regBoom : Registry :=
  register_datasource (register_datasource [] dsA) dsBoom

/-- The class `cdls.datasources.BaseDataSource` itself
(`issubclass(BaseDataSource, BaseDataSource)` holds; no subclass-specific
required params). -/
def clsBase : PyClass :=
  { name := "BaseDataSource", isDataSourceSubclass := true, required_params := [] }

/-- The class `cdls.datasources.LocalFileDataSource`, a `BaseDataSource`
subclass whose `__init__` additionally requires `queue_path` and
`archive_path`. -/
def clsLocalFile : PyClass :=
  { name := "LocalFileDataSource", isDataSourceSubclass := true
    required_params := ["queue_path", "archive_path"] }

/-- The class `cdls.datasources.LoadReport`: defined in the module but not a
`BaseDataSource` subclass (its constructor is never reached through
`_register_all_datasources`, since the `assert issubclass` fails first). -/
def clsLoadReport : PyClass :=
  { name := "LoadReport", isDataSourceSubclass := false, required_params := [] }

/-- The module universe with the classes `cdls/datasources.py` actually
defines: `BaseDataSource`, `LocalFileDataSource` and `LoadReport`. -/
def sampleModules : Modules :=
  [("cdls.datasources",
    [("BaseDataSource", clsBase),
     ("LocalFileDataSource", clsLocalFile),
     ("LoadReport", clsLoadReport)])]

/-- A well-formed configuration node resolving to `LocalFileDataSource`,
carrying all four required parameters. -/
def nodeGood : ConfigNode :=
  [("@QualifiedClassName", "cdls.datasources.LocalFileDataSource"),
   ("id", "local0"), ("description", "queue folder"),
   ("queue_path", "/data/queue"), ("archive_path", "/data/archive")]

/-- A second well-formed node with a distinct identifier. -/
def nodeGood2 : ConfigNode :=
  [("@QualifiedClassName", "cdls.datasources.LocalFileDataSource"),
   ("id", "local1"), ("description", "other folder"),
   ("queue_path", "/data/queue2"), ("archive_path", "/data/archive2")]

/-- A node referencing a class absent from an importable module. -/
def nodeMissingClass : ConfigNode :=
  [("@QualifiedClassName", "cdls.datasources.RemoteDataSource"),
   ("id", "remote0"), ("description", "remote")]

/-- A node resolving to `cdls.datasources.LoadReport`, an existing class
that is not a `BaseDataSource` subclass. -/
def nodeNotSubclass : ConfigNode :=
  [("@QualifiedClassName", "cdls.datasources.LoadReport"),
   ("id", "util0"), ("description", "utility")]

/-- The data source that registering `nodeGood` constructs. -/
def dsLocal0 : DataSource :=
  { identifier := "local0", dstype := "LocalFileDataSource"
    description := "queue folder"
    behavior := .error (.cdlsError "Not yet implemented") }

/-- A database state whose every statement fails (`database is locked`). -/
def lockedDB : DBState :=
  { has_loadstats := false, has_warehouse := false, rows := [], locked := true }

/-- A freshly installed, unlocked database. -/
def dbReady : DBState :=
  { has_loadstats := true, has_warehouse := true, rows := [], locked := false }

theorem foldr_max_swap (l : List Nat) (a b : Nat) :
    l.foldr max (max a b) = max a (l.foldr max b) := by
  induction l with
  | nil => rfl
  | cons x xs ih => simp only [List.foldr_cons, ih]; omega

theorem foldl_update_latest (dates : List Nat) (r : LoadReport) :
    (dates.foldl update_latest_record_date r).latest_record
      = dates.foldr max r.latest_record := by
  induction dates generalizing r with
  | nil => rfl
  | cons d ds ih =>
    simp only [List.foldl_cons, List.foldr_cons, ih, update_latest_record_date]
    exact foldr_max_swap ds d r.latest_record

theorem foldr_max_ge (l : List Nat) (d : Nat) (h : d ∈ l) : d ≤ l.foldr max 0 := by
  induction l with
  | nil => cases h
  | cons x xs ih =>
    rcases List.mem_cons.mp h with h | h
    · subst h; simp only [List.foldr_cons]; omega
    · have := ih h; simp only [List.foldr_cons]; omega

theorem foldr_max_mem (l : List Nat) (h : l ≠ []) : l.foldr max 0 ∈ l := by
  induction l with
  | nil => exact absurd rfl h
  | cons x xs ih =>
    cases xs with
    | nil => simp
    | cons y ys =>
      rcases max_choice x ((y :: ys).foldr max 0) with h1 | h1 <;>
        simp only [List.foldr_cons] at h1 ⊢ <;> rw [h1]
      · exact List.mem_cons_self x _
      · exact List.mem_cons_of_mem x (ih (by simp))

/-- C9: within one execution, after any nonempty sequence of
update-latest-record calls the report's `latest_record` equals the maximum
date ever supplied (in particular it is attained by and bounds every
supplied date, so the supply order is irrelevant); it is initialized to the
minimal sentinel date, and each single update is monotonically
non-decreasing. -/
theorem latest_record_is_max_of_supplied_dates
    (identifier : String) (dates : List Nat) (hne : dates ≠ []) :
    (dates.foldl update_latest_record_date (LoadReport.init identifier)).latest_record
        = dates.foldr max 0
    ∧ (dates.foldl update_latest_record_date (LoadReport.init identifier)).latest_record
        ∈ dates
    ∧ (∀ d ∈ dates,
        d ≤ (dates.foldl update_latest_record_date (LoadReport.init identifier)).latest_record)
    ∧ (LoadReport.init identifier).latest_record = 0
    ∧ (∀ (r : LoadReport) (d : Nat),
        r.latest_record ≤ (update_latest_record_date r d).latest_record) := by
  have hfold : (dates.foldl update_latest_record_date (LoadReport.init identifier)).latest_record
      = dates.foldr max 0 := foldl_update_latest dates (LoadReport.init identifier)
  refine ⟨hfold, ?_, ?_, rfl, ?_⟩
  · rw [hfold]; exact foldr_max_mem dates hne
  · intro d hd; rw [hfold]; exact foldr_max_ge dates d hd
  · intro r d; simp only [update_latest_record_date]; omega

theorem latest_record_is_max_of_supplied_dates_witness :
    (([3, 1, 2] : List Nat).foldl update_latest_record_date (LoadReport.init "x")).latest_record
        = ([3, 1, 2] : List Nat).foldr max 0
    ∧ (([3, 1, 2] : List Nat).foldl update_latest_record_date (LoadReport.init "x")).latest_record
        ∈ ([3, 1, 2] : List Nat)
    ∧ (∀ d ∈ ([3, 1, 2] : List Nat),
        d ≤ (([3, 1, 2] : List Nat).foldl update_latest_record_date (LoadReport.init "x")).latest_record)
    ∧ (LoadReport.init "x").latest_record = 0
    ∧ (∀ (r : LoadReport) (d : Nat),
        r.latest_record ≤ (update_latest_record_date r d).latest_record) :=
  latest_record_is_max_of_supplied_dates "x" [3, 1, 2] (by decide)

theorem find?_replace {α : Type} (d : List (String × α)) (k : String) (v : α)
    (h : d.any (fun p => p.1 == k) = true) :
    (d.map (fun p => if p.1 == k then (k, v) else p)).find? (fun p => p.1 == k)
      = some (k, v) := by
  induction d with
  | nil => simp at h
  | cons p ps ih =>
    rw [List.map_cons]
    cases hp : (p.1 == k) with
    | true =>
      rw [if_pos rfl]
      exact List.find?_cons_of_pos _ (beq_self_eq_true k)
    | false =>
      rw [if_neg Bool.false_ne_true]
      exact (List.find?_cons_of_neg _ (by simp [hp])).trans
        (ih (by simpa [List.any_cons, hp] using h))

theorem find?_none_of_no_key {α : Type} (d : List (String × α)) (k : String)
    (h : d.any (fun p => p.1 == k) = false) :
    d.find? (fun p => p.1 == k) = none := by
  induction d with
  | nil => rfl
  | cons p ps ih =>
    simp only [List.any_cons, Bool.or_eq_false_iff] at h
    exact (List.find?_cons_of_neg _ (by simp [h.1])).trans (ih h.2)

theorem dictGet_dictSet_self {α : Type} (d : List (String × α)) (k : String) (v : α) :
    dictGet (dictSet d k v) k = some v := by
  cases h : d.any (fun p => p.1 == k) with
  | true =>
    rw [dictSet, if_pos h, dictGet, find?_replace d k v h]
  | false =>
    rw [dictSet, if_neg (by simp [h]), dictGet, List.find?_append,
      find?_none_of_no_key d k h]
    have hfind : List.find? (fun p => p.1 == k) [(k, v)] = some (k, v) :=
      List.find?_cons_of_pos _ (beq_self_eq_true k)
    rw [hfind]
    rfl

theorem dictSet_keys {α : Type} (d : List (String × α)) (k : String) (v : α) :
    (dictSet d k v).map (fun p => p.1)
      = if d.any (fun p => p.1 == k) then d.map (fun p => p.1)
        else d.map (fun p => p.1) ++ [k] := by
  cases h : d.any (fun p => p.1 == k) with
  | true =>
    rw [dictSet, if_pos h, if_pos rfl, List.map_map]
    refine List.map_congr_left ?_
    intro p _
    show (if p.1 == k then (k, v) else p).1 = p.1
    by_cases hpk : p.1 = k
    · rw [if_pos (beq_iff_eq.mpr hpk)]
      exact hpk.symm
    · rw [if_neg (by simp [hpk])]
  | false =>
    rw [dictSet, if_neg (by simp [h]), if_neg Bool.false_ne_true]
    simp

theorem hasKey_iff {α : Type} (d : List (String × α)) (k : String) :
    d.any (fun p => p.1 == k) = true ↔ k ∈ d.map (fun p => p.1) := by
  induction d with
  | nil => simp
  | cons p ps ih =>
    simp only [List.map_cons, List.any_cons, Bool.or_eq_true, beq_iff_eq, ih,
      List.mem_cons]
    constructor
    · rintro (h1 | h1)
      · exact Or.inl h1.symm
      · exact Or.inr h1
    · rintro (h1 | h1)
      · exact Or.inl h1.symm
      · exact Or.inr h1

/-- C5 counterexample: a source whose configured identifier is `" src1 "`
(with surrounding whitespace) is stored under `" src1 "` itself, not under
the trimmed `"src1"` the claim asserts — the trimmed key misses. -/
theorem register_datasource_key_not_trimmed :
    dictGet (register_datasource [] dsSp) (pyStrip dsSp.identifier) = none
    ∧ pyStrip dsSp.identifier = "src1"
    ∧ dictGet (register_datasource [] dsSp) dsSp.identifier = some dsSp := by decide

/-- C5 (amended): `register_datasource` stores the instance keyed by its
identifier exactly as constructed (no trimming), overwriting any prior
entry under the same identifier: after registering two sources with the
same identifier, exactly one entry exists under that identifier and it is
the later instance (last-write-wins). -/
theorem register_datasource_untrimmed_last_write_wins
    (reg : Registry) (ds1 ds2 : DataSource)
    (hkeys : (reg.map (fun p => p.1)).Nodup)
    (hid : ds1.identifier = ds2.identifier) :
    dictGet (register_datasource (register_datasource reg ds1) ds2) ds2.identifier
      = some ds2
    ∧ ((register_datasource (register_datasource reg ds1) ds2).map (fun p => p.1)).count
        ds2.identifier = 1 := by
  constructor
  · exact dictGet_dictSet_self _ _ _
  · rw [register_datasource, register_datasource, hid]
    cases hK : reg.any (fun p => p.1 == ds2.identifier) with
    | true =>
      have hkeys1 : (dictSet reg ds2.identifier ds1).map (fun p => p.1)
          = reg.map (fun p => p.1) := by rw [dictSet_keys, if_pos hK]
      have hK1 : (dictSet reg ds2.identifier ds1).any (fun p => p.1 == ds2.identifier)
          = true := by
        rw [hasKey_iff, hkeys1]; exact (hasKey_iff reg ds2.identifier).mp hK
      have hkeys2 : (dictSet (dictSet reg ds2.identifier ds1) ds2.identifier ds2).map
          (fun p => p.1) = reg.map (fun p => p.1) := by
        rw [dictSet_keys, if_pos hK1, hkeys1]
      rw [hkeys2]
      exact List.count_eq_one_of_mem hkeys ((hasKey_iff reg ds2.identifier).mp hK)
    | false =>
      have hnot : ds2.identifier ∉ reg.map (fun p => p.1) := by
        intro hmem
        rw [← hasKey_iff] at hmem
        exact absurd (hK ▸ hmem) Bool.false_ne_true
      have hkeys1 : (dictSet reg ds2.identifier ds1).map (fun p => p.1)
          = reg.map (fun p => p.1) ++ [ds2.identifier] := by
        rw [dictSet_keys, if_neg]
        exact fun hc => absurd (hK ▸ hc) Bool.false_ne_true
      have hK1 : (dictSet reg ds2.identifier ds1).any (fun p => p.1 == ds2.identifier)
          = true := by
        rw [hasKey_iff, hkeys1]; simp
      have hkeys2 : (dictSet (dictSet reg ds2.identifier ds1) ds2.identifier ds2).map
          (fun p => p.1) = reg.map (fun p => p.1) ++ [ds2.identifier] := by
        rw [dictSet_keys, if_pos hK1, hkeys1]
      rw [hkeys2, List.count_append]
      rw [List.count_eq_zero_of_not_mem hnot]
      simp [List.count_cons]

theorem register_datasource_untrimmed_last_write_wins_witness :
    dictGet (register_datasource (register_datasource [] dsA) dsA2) dsA2.identifier
      = some dsA2
    ∧ ((register_datasource (register_datasource [] dsA) dsA2).map (fun p => p.1)).count
        dsA2.identifier = 1 :=
  register_datasource_untrimmed_last_write_wins [] dsA dsA2 (by decide) (by decide)

/-- C3: evaluating `_get_qualified_class_ref` on a node whose referenced
class is absent from an otherwise importable module shows the
`except AttributeError` handler raising `NameError` (its `str(e)` refers to
an unbound `e`) instead of the documented `SourceConfigurationError`; the
missing-field and missing-module cases do raise `SourceConfigurationError`,
and a resolvable reference succeeds. -/
theorem get_qualified_class_ref_missing_class_raises_name_error :
    get_qualified_class_ref sampleModules nodeMissingClass
      = .error (.nameError "e")
    ∧ isConfigurationError (PyErr.nameError "e") = false
    ∧ get_qualified_class_ref sampleModules [("id", "x")]
      = .error (.sourceConfigurationError "@QualifiedClassName property is missing")
    ∧ get_qualified_class_ref sampleModules
        [("@QualifiedClassName", "nosuch.Thing"), ("id", "x"), ("description", "d")]
      = .error (.sourceConfigurationError "No module named nosuch")
    ∧ get_qualified_class_ref sampleModules nodeGood = .ok clsLocalFile := by decide

/-- C4 counterexample: on a node whose type reference resolves to the real
class `cdls.datasources.LoadReport` — present in the module but not a
`BaseDataSource` subclass — `_register_all_datasources` stops with
`AssertionError` (from the bare `assert issubclass(...)`), not with a
`ConfigurationError` as the claim states; the fully-configured node
registered before the failing one remains registered. -/
theorem register_all_assert_failure_not_configuration_error :
    (register_all_datasources sampleModules [] [nodeGood, nodeNotSubclass, nodeGood2]).2
      = some PyErr.assertionError
    ∧ isConfigurationError PyErr.assertionError = false
    ∧ (register_all_datasources sampleModules [] [nodeGood, nodeNotSubclass, nodeGood2]).1
      = [("local0", dsLocal0)] := by decide

/-- C4 (amended): `_register_all_datasources` fails fast on the first node
whose processing raises — raising `ConfigurationError` when the node cannot
be resolved or constructed, but `AssertionError` when the resolved type is
not a `BaseDataSource` subclass — and the nodes registered before the
failing node remain registered (no rollback): the loop stops with exactly
the registry accumulated from the preceding nodes and the raised error. -/
theorem register_all_datasources_fail_fast_no_rollback
    (modules : Modules) (reg reg1 : Registry)
    (pre : List ConfigNode) (node : ConfigNode) (post : List ConfigNode) (e : PyErr)
    (hpre : register_all_datasources modules reg pre = (reg1, none))
    (hnode : process_node modules node = .error e) :
    register_all_datasources modules reg (pre ++ node :: post) = (reg1, some e) := by
  induction pre generalizing reg with
  | nil =>
    simp only [register_all_datasources, Prod.mk.injEq] at hpre
    rw [← hpre.1]
    simp only [List.nil_append, register_all_datasources, hnode]
  | cons n ns ih =>
    rw [List.cons_append]
    cases hn : process_node modules n with
    | error e2 =>
      rw [register_all_datasources, hn] at hpre ⊢
      exact absurd (Prod.mk.injEq .. ▸ hpre).2 (by simp)
    | ok ds =>
      rw [register_all_datasources, hn] at hpre ⊢
      exact ih _ hpre

theorem register_all_datasources_fail_fast_no_rollback_witness :
    register_all_datasources sampleModules []
        ([nodeGood] ++ nodeNotSubclass :: [nodeGood2])
      = ([("local0", dsLocal0)], some PyErr.assertionError) :=
  register_all_datasources_fail_fast_no_rollback sampleModules []
    [("local0", dsLocal0)] [nodeGood] nodeNotSubclass [nodeGood2]
    PyErr.assertionError (by decide) (by decide)

/-- C6 counterexample: on a locked database, the LOAD_STATS drop failure is
swallowed but the LOAD_STATS create failure is raised as the bare
`sqlite3.OperationalError` — a schema-execution failure that is not
`DatabaseError`, contrary to the claim — because that statement runs
through `connection.execute` and not `_execute_query`. -/
theorem install_locked_failure_not_database_error :
    install lockedDB = (lockedDB, some (PyErr.operationalError "database is locked"))
    ∧ isDatabaseError (PyErr.operationalError "database is locked") = false := by
  decide

/-- C6 (amended): on an unlocked database, `install()` succeeds — drop
failures for missing tables are benign no-ops — leaving both tables present
and freshly empty (the reset is destructive: any existing warehouse rows
are dropped with their table), and a second `install()` right after also
succeeds even though its drop step targets the tables the first call
created.  (A schema-execution failure on the warehouse-table create is
wrapped as `DatabaseError` via `_execute_query`, but the load-stats-table
create runs bare, so its failures surface as the raw `OperationalError`.) -/
theorem install_unlocked_idempotent (s : DBState) (h : s.locked = false) :
    (install s).2 = none
    ∧ (install s).1.has_loadstats = true
    ∧ (install s).1.has_warehouse = true
    ∧ (install s).1.rows = []
    ∧ (install (install s).1).2 = none := by
  obtain ⟨ls, wh, rows, lk⟩ := s
  simp only at h
  subst h
  cases ls <;> cases wh <;> simp [install, sqliteExec, execute_query]

theorem install_unlocked_idempotent_witness :
    (install { has_loadstats := false, has_warehouse := true,
               rows := [{ source_identifier := "A", record_date := "1", json := "x" }],
               locked := false }).2 = none
    ∧ (install { has_loadstats := false, has_warehouse := true,
                 rows := [{ source_identifier := "A", record_date := "1", json := "x" }],
                 locked := false }).1.has_loadstats = true
    ∧ (install { has_loadstats := false, has_warehouse := true,
                 rows := [{ source_identifier := "A", record_date := "1", json := "x" }],
                 locked := false }).1.has_warehouse = true
    ∧ (install { has_loadstats := false, has_warehouse := true,
                 rows := [{ source_identifier := "A", record_date := "1", json := "x" }],
                 locked := false }).1.rows = []
    ∧ (install (install { has_loadstats := false, has_warehouse := true,
                          rows := [{ source_identifier := "A", record_date := "1", json := "x" }],
                          locked := false }).1).2 = none :=
  install_unlocked_idempotent
    { has_loadstats := false, has_warehouse := true
      rows := [{ source_identifier := "A", record_date := "1", json := "x" }]
      locked := false }
    (by decide)

/-- C7 counterexample: warehousing a value without a `__dict__` (a `set`)
makes the `_tojson` fallback raise `AttributeError`, which escapes the
`except TypeError` handler of `warehouse()` — the raised error is not the
claimed `DatabaseError` (though indeed no row is written). -/
theorem warehouse_nodict_value_raises_attribute_error :
    warehouse dbReady (PyVal.nodict "set") "fake" 0
      = (dbReady, some (PyErr.attributeError "set object has no attribute __dict__"))
    ∧ isDatabaseError (PyErr.attributeError "set object has no attribute __dict__")
      = false := by decide

/-- C7 (amended): whenever serialization of the packaged record fails,
`warehouse()` raises — `DatabaseError` when the failure surfaces as
`TypeError`, but the raw exception itself otherwise (e.g. the
`AttributeError` from `_tojson` on a value with no `__dict__`) — and writes
no row: the database state is returned unchanged. -/
theorem warehouse_serialization_failure_no_row
    (s : DBState) (data : PyVal) (source : String) (record_date : Nat) (e : PyErr)
    (h : dumpsVal (packageData data) = .error e) :
    warehouse s data source record_date
      = (s, some (match e with
          | .typeError _ => PyErr.databaseError "JSON-serialization failed on data"
          | _ => e)) := by
  cases e <;> simp [warehouse, h]

theorem warehouse_serialization_failure_no_row_witness :
    warehouse dbReady (PyVal.nodict "frozenset") "src" 3
      = (dbReady, some (PyErr.attributeError "frozenset object has no attribute __dict__")) :=
  warehouse_serialization_failure_no_row dbReady (PyVal.nodict "frozenset") "src" 3
    (PyErr.attributeError "frozenset object has no attribute __dict__") (by decide)

theorem performLoadsLoop_skip (srcs : List DataSource) (acc : List LoadReport)
    (h : srcs.all failsOnlyAsCDLSError = true) :
    performLoadsLoop false srcs acc
      = .ok (acc ++ srcs.filterMap (fun ds => ds.behavior.toOption)) := by
  induction srcs generalizing acc with
  | nil => simp [performLoadsLoop]
  | cons ds rest ih =>
    simp only [List.all_cons, Bool.and_eq_true] at h
    obtain ⟨h1, h2⟩ := h
    cases hb : ds.behavior with
    | ok r =>
      simp [performLoadsLoop, hb, ih _ h2, List.filterMap_cons, Except.toOption]
    | error e =>
      have hc : isCDLSError e = true := by
        simp only [failsOnlyAsCDLSError, hb] at h1; exact h1
      simp [performLoadsLoop, hb, hc, ih _ h2, List.filterMap_cons, Except.toOption]

theorem filterMap_toOption_length (srcs : List DataSource) :
    (srcs.filterMap (fun ds => ds.behavior.toOption)).length
      = srcs.length - (srcs.filter (fun ds => !behaviorOk ds)).length := by
  induction srcs with
  | nil => rfl
  | cons d rest ih =>
    have hle := List.length_filter_le (fun ds => !behaviorOk ds) rest
    cases hb : d.behavior with
    | ok r =>
      have h2 : d.behavior.toOption = some r := by rw [hb]; rfl
      have h1 : (!behaviorOk d) = false := by simp [behaviorOk, hb]
      rw [List.filterMap_cons, h2, List.filter_cons, h1,
        if_neg Bool.false_ne_true]
      simp only [List.length_cons, ih]
      omega
    | error e =>
      have h2 : d.behavior.toOption = none := by rw [hb]; rfl
      have h1 : (!behaviorOk d) = true := by simp [behaviorOk, hb]
      rw [List.filterMap_cons, h2, List.filter_cons, h1, if_pos rfl]
      simp only [List.length_cons, ih]
      omega

/-- C2: with `halt_on_error=false`, over sources that raise only domain
errors (`CDLSError`), `perform_all_loads` returns exactly the reports of
the non-raising sources, in order — no failing source's report appears and
the batch continues past each failure — so the result has length `N - K`
where `N` is the number of registered sources and `K` the number of failing
ones. -/
theorem perform_all_loads_continue_skips_failing_sources
    (reg : Registry)
    (h : (reg.map (fun p => p.2)).all failsOnlyAsCDLSError = true) :
    perform_all_loads reg false
      = .ok ((reg.map (fun p => p.2)).filterMap (fun ds => ds.behavior.toOption))
    ∧ ((reg.map (fun p => p.2)).filterMap (fun ds => ds.behavior.toOption)).length
      = reg.length
        - ((reg.map (fun p => p.2)).filter (fun ds => !behaviorOk ds)).length := by
  constructor
  · simpa [perform_all_loads] using
      performLoadsLoop_skip (reg.map (fun p => p.2)) [] h
  · have := filterMap_toOption_length (reg.map (fun p => p.2))
    simpa using this

theorem perform_all_loads_continue_skips_failing_sources_witness :
    perform_all_loads regMix false
      = .ok ((regMix.map (fun p => p.2)).filterMap (fun ds => ds.behavior.toOption))
    ∧ ((regMix.map (fun p => p.2)).filterMap (fun ds => ds.behavior.toOption)).length
      = regMix.length
        - ((regMix.map (fun p => p.2)).filter (fun ds => !behaviorOk ds)).length :=
  perform_all_loads_continue_skips_failing_sources regMix (by decide)

theorem performLoadsLoop_first_error
    (halt_on_error : Bool) (pre post : List DataSource) (f : DataSource) (e : PyErr)
    (acc : List LoadReport)
    (hpre : pre.all behaviorOk = true)
    (hf : f.behavior = .error e)
    (hstop : isCDLSError e = false ∨ halt_on_error = true) :
    performLoadsLoop halt_on_error (pre ++ f :: post) acc = .error e := by
  induction pre generalizing acc with
  | nil =>
    rcases hstop with hs | hs
    · simp [performLoadsLoop, hf, hs]
    · subst hs
      cases hc : isCDLSError e <;> simp [performLoadsLoop, hf, hc]
  | cons d ds ih =>
    simp only [List.all_cons, Bool.and_eq_true] at hpre
    obtain ⟨h1, h2⟩ := hpre
    cases hb : d.behavior with
    | ok r =>
      simp only [List.cons_append, performLoadsLoop, hb]
      exact ih _ h2
    | error e2 => simp [behaviorOk, hb] at h1

/-- C8: with `halt_on_error=true`, when the first failing source (all
sources before it succeed) raises a domain error, `perform_all_loads`
re-raises that error: the result is the bare exception — the reports
collected before the failure are discarded and the sources after the
failing one do not affect the outcome (the conclusion holds for every
`post`). -/
theorem perform_all_loads_halt_reraises_first_error
    (reg : Registry) (pre post : List DataSource) (f : DataSource) (e : PyErr)
    (hsplit : reg.map (fun p => p.2) = pre ++ f :: post)
    (hpre : pre.all behaviorOk = true)
    (hf : f.behavior = .error e)
    (_he : isCDLSError e = true) :
    perform_all_loads reg true = .error e := by
  rw [perform_all_loads, hsplit]
  exact performLoadsLoop_first_error true pre post f e [] hpre hf (Or.inr rfl)

theorem perform_all_loads_halt_reraises_first_error_witness :
    perform_all_loads regHalt true = .error (PyErr.extractError "boom") :=
  perform_all_loads_halt_reraises_first_error regHalt [] [dsB] dsFail
    (PyErr.extractError "boom") (by decide) (by decide) (by decide) (by decide)

/-- C10: an exception that is not a `CDLSError` raised by a source's
`execute()` propagates out of `perform_all_loads` for either value of
`halt_on_error` — in particular even with `halt_on_error=false` — because
the skip-and-continue handler catches only `CDLSError`. -/
theorem perform_all_loads_non_cdls_error_propagates
    (reg : Registry) (pre post : List DataSource) (f : DataSource) (e : PyErr)
    (halt_on_error : Bool)
    (hsplit : reg.map (fun p => p.2) = pre ++ f :: post)
    (hpre : pre.all behaviorOk = true)
    (hf : f.behavior = .error e)
    (he : isCDLSError e = false) :
    perform_all_loads reg halt_on_error = .error e := by
  rw [perform_all_loads, hsplit]
  exact performLoadsLoop_first_error halt_on_error pre post f e [] hpre hf (Or.inl he)

theorem perform_all_loads_non_cdls_error_propagates_witness :
    perform_all_loads regBoom false = .error (PyErr.typeError "unsupported operand") :=
  perform_all_loads_non_cdls_error_propagates regBoom [dsA] [] dsBoom
    (PyErr.typeError "unsupported operand") false (by decide) (by decide)
    (by decide) (by decide)

theorem performLoadsLoop_all_ok
    (halt_on_error : Bool) (srcs : List DataSource) (acc : List LoadReport)
    (h : srcs.all behaviorOk = true) :
    performLoadsLoop halt_on_error srcs acc
      = .ok (acc ++ srcs.filterMap (fun ds => ds.behavior.toOption)) := by
  induction srcs generalizing acc with
  | nil => simp [performLoadsLoop]
  | cons d rest ih =>
    simp only [List.all_cons, Bool.and_eq_true] at h
    obtain ⟨h1, h2⟩ := h
    cases hb : d.behavior with
    | ok r =>
      have ho : d.behavior.toOption = some r := by rw [hb]; rfl
      rw [List.filterMap_cons, ho]
      simp [performLoadsLoop, hb, ih _ h2]
    | error e => simp [behaviorOk, hb] at h1

theorem filterMap_toOption_identifiers (srcs : List DataSource)
    (h : srcs.all returnsOwnReport = true) :
    (srcs.filterMap (fun ds => ds.behavior.toOption)).map LoadReport.identifier
      = srcs.map DataSource.identifier := by
  induction srcs with
  | nil => rfl
  | cons d rest ih =>
    simp only [List.all_cons, Bool.and_eq_true] at h
    obtain ⟨h1, h2⟩ := h
    cases hb : d.behavior with
    | ok r =>
      have hid : r.identifier = d.identifier := by
        simp only [returnsOwnReport, hb, beq_iff_eq] at h1; exact h1
      have ho : d.behavior.toOption = some r := by rw [hb]; rfl
      rw [List.filterMap_cons, ho, List.map_cons, List.map_cons, hid, ih h2]
    | error e => simp [returnsOwnReport, hb] at h1

theorem all_returnsOwnReport_behaviorOk (srcs : List DataSource)
    (h : srcs.all returnsOwnReport = true) : srcs.all behaviorOk = true := by
  rw [List.all_eq_true] at h ⊢
  intro d hd
  have := h d hd
  cases hb : d.behavior with
  | ok r => simp [behaviorOk, hb]
  | error e => simp [returnsOwnReport, hb] at this

theorem sortByKey_of_chain {α : Type} (l : List (String × α))
    (h : List.Chain' (fun p q => strLe p.1 q.1 = true) l) :
    sortByKey l = l := by
  induction l with
  | nil => rfl
  | cons x rest ih =>
    have htail : sortByKey rest = rest := ih h.tail
    show insertByKey x (sortByKey rest) = x :: rest
    rw [htail]
    cases rest with
    | nil => rfl
    | cons y ys =>
      have hxy : strLe x.1 y.1 = true := (List.chain'_cons.mp h).1
      rw [insertByKey, if_pos hxy]

/-- C1 counterexample: in a registry where `b` was registered before `a`
(every source succeeding and reporting its own identifier),
`perform_all_loads` executes and reports in insertion order `[b, a]`, while
`list_registered_sources` lists in identifier-sorted order `[a, b]` — the
execution order is not the identifier-sorted order the claim states. -/
theorem perform_all_loads_order_differs_from_list_order :
    (perform_all_loads regBA false).map
        (fun reports => reports.map LoadReport.identifier)
      ≠ .ok ((list_registered_sources regBA).map (fun t => t.1)) := by decide

/-- C1 (amended): `perform_all_loads` iterates the registered sources in
registration (insertion) order — its reports, in order, carry exactly the
registry values' identifiers — which is deterministic but coincides with the
identifier-sorted order of `list_registered_sources` only when the sources
were registered in ascending identifier order. -/
theorem perform_all_loads_runs_in_registration_order
    (reg : Registry) (halt_on_error : Bool)
    (hok : (reg.map (fun p => p.2)).all returnsOwnReport = true) :
    (perform_all_loads reg halt_on_error).map
        (fun reports => reports.map LoadReport.identifier)
      = .ok (reg.map (fun p => p.2.identifier))
    ∧ (List.Chain' (fun p q => strLe p.1 q.1 = true) reg →
        (list_registered_sources reg).map (fun t => t.1)
          = reg.map (fun p => p.2.identifier)) := by
  constructor
  · have hbo := all_returnsOwnReport_behaviorOk _ hok
    rw [perform_all_loads, performLoadsLoop_all_ok halt_on_error _ [] hbo]
    simp only [Except.map, List.nil_append]
    rw [filterMap_toOption_identifiers _ hok, List.map_map]
    rfl
  · intro hchain
    rw [list_registered_sources, sortByKey_of_chain reg hchain, List.map_map]
    rfl

theorem perform_all_loads_runs_in_registration_order_witness :
    (perform_all_loads regAB false).map
        (fun reports => reports.map LoadReport.identifier)
      = .ok (regAB.map (fun p => p.2.identifier))
    ∧ (List.Chain' (fun p q => strLe p.1 q.1 = true) regAB →
        (list_registered_sources regAB).map (fun t => t.1)
          = regAB.map (fun p => p.2.identifier)) :=
  perform_all_loads_runs_in_registration_order regAB false (by decide)
